import Mathlib

/-!
Verification of the manifest identification, apply-ordering and
overlay-synthesis engine of the terraform-provider-kustomization
repository.

The embedding covers:
- the manifest entry data model (`Resource`) and the derived string
  identifier (`resIdString`), modelled from the spec: the function that
  renders identifiers (`ResId.String` used by `flattenKustomizationIDs`)
  is not among the provided source files, only its observable outputs in
  the unit test `TestFlattenKustomizationIDs` are;
- the priority classifier (`flattenKustomizationIDs`), modelled from the
  spec for the same reason, checked against the unit test's expectations;
- the overlay composition `getKustomization` (translated from
  `data_source_kustomization_overlay.go`);
- trace semantics for `kustomizationBuild` and `kustomizationOverlay`
  (translated from `data_source_kustomization_build.go` and
  `data_source_kustomization_overlay.go`), with the external build
  operation, the YAML encoder and the file system modelled as
  parameters.
-/

/-- A manifest entry of the build result (one entry of the kustomize
ResMap).  Carries the group/version/kind triple, the namespace (field
`ns`; possibly empty for cluster-scoped resources), the name, and the
serialized body.  `ns` stands for the Go field `Namespace` (a reserved
word in Lean). -/
structure Resource where
  group : String
  version : String
  kind : String
  ns : String
  name : String
  body : String
deriving DecidableEq, Repr

/-- Modelled from the spec: the group token of the identifier; an empty
group (core API group) is replaced by the sentinel token `~G` (the
sentinel value is evidenced by `TestFlattenKustomizationIDs` in the
provided sources). -/
def groupToken (r : Resource) : String :=
  if r.group = "" then "~G" else r.group

/-- Modelled from the spec: the namespace token of the identifier; an
empty namespace (cluster-scoped resource) is replaced by the distinct
sentinel token `~X` (evidenced by `TestFlattenKustomizationIDs`). -/
def nsToken (r : Resource) : String :=
  if r.ns = "" then "~X" else r.ns

/-- Modelled from the spec: the group/version/kind token
`<sentinel-or-group>_<version>_<kind>`. -/
def gvkToken (r : Resource) : String :=
  groupToken r ++ "_" ++ r.version ++ "_" ++ r.kind

/-- Modelled from the spec: the canonical string identifier of a
manifest entry, `<groupVersionKindToken>|<namespaceToken>|<name>`.
The repository calls this `ResId.String`; it is not among the provided
source files (only the unit test pinning its outputs is). -/
def resIdString (r : Resource) : String :=
  gvkToken r ++ "|" ++ nsToken r ++ "|" ++ r.name

/-- Modelled from the spec: the priority tier of a manifest entry.
Scope-establishing resources (Namespaces, CustomResourceDefinitions)
get the lowest tier 0; webhook configurations, which must be applied
after everything else, get the final tier 2; ordinary resources get
tier 1. -/
def tierOf (r : Resource) : Nat :=
  if r.kind = "Namespace" ∨ r.kind = "CustomResourceDefinition" then 0
  else if r.kind = "ValidatingWebhookConfiguration" ∨
          r.kind = "MutatingWebhookConfiguration" then 2
  else 1

/-- Modelled from the spec: `flattenKustomizationIDs` derives, from the
build's ResourceMap, the full identifier list and the three per-tier
identifier lists in ascending apply-order.  The function itself is not
among the provided source files; its behaviour is pinned by the unit
test `TestFlattenKustomizationIDs`. -/
def flattenKustomizationIDs (rm : List Resource) :
    List String × List (List String) :=
  ( rm.map resIdString
  , [ (rm.filter (fun r => tierOf r == 0)).map resIdString
    , (rm.filter (fun r => tierOf r == 1)).map resIdString
    , (rm.filter (fun r => tierOf r == 2)).map resIdString ] )

/-- The Namespace entry of the `test_kustomizations/basic/initial` base
used by `TestFlattenKustomizationIDs`. -/
def nsRes : Resource :=
  { group := "", version := "v1", kind := "Namespace", ns := ""
  , name := "test-basic", body := "body-namespace" }

/-- The Deployment entry of the basic base. -/
def depRes : Resource :=
  { group := "apps", version := "v1", kind := "Deployment"
  , ns := "test-basic", name := "test", body := "body-deployment" }

/-- The Ingress entry of the basic base. -/
def ingRes : Resource :=
  { group := "networking.k8s.io", version := "v1beta1", kind := "Ingress"
  , ns := "test-basic", name := "test", body := "body-ingress" }

/-- The Service entry of the basic base. -/
def svcRes : Resource :=
  { group := "", version := "v1", kind := "Service", ns := "test-basic"
  , name := "test", body := "body-service" }

/-- The ResourceMap produced by building the basic base. -/
def basicRm : List Resource := [nsRes, depRes, ingRes, svcRes]

example : resIdString nsRes = "~G_v1_Namespace|~X|test-basic" := by decide
example : resIdString depRes = "apps_v1_Deployment|test-basic|test" := by decide
example : resIdString ingRes = "networking.k8s.io_v1beta1_Ingress|test-basic|test" := by decide
example : resIdString svcRes = "~G_v1_Service|test-basic|test" := by decide
example : (flattenKustomizationIDs basicRm).2 =
    [ ["~G_v1_Namespace|~X|test-basic"]
    , [ "apps_v1_Deployment|test-basic|test"
      , "networking.k8s.io_v1beta1_Ingress|test-basic|test"
      , "~G_v1_Service|test-basic|test" ]
    , [] ] := by decide

/-!
## Overlay composition (`getKustomization`, from
`data_source_kustomization_overlay.go`)

The terraform schema data (`*schema.ResourceData`) is modelled by the
structure `OverlayData`.  A repeated block attribute is a list whose
entries may be null (`nil` in the Go source), hence `List (Option _)`.
`d.Get` on a schema-declared attribute never returns Go `nil` for these
types (the SDK substitutes zero values), so the `if d.Get(...) != nil`
guards in the source are always taken and are not modelled separately.
-/

/-- One `config_map_generator` block of the overlay data source. -/
structure ConfigMapGeneratorBlock where
  name : String
  behavior : String
  envs : List String
  files : List String
  literals : List String
deriving DecidableEq, Repr

/-- One `images` block of the overlay data source. -/
structure ImageBlock where
  name : String
  newName : String
  newTag : String
  digest : String
deriving DecidableEq, Repr

/-- One `replicas` block of the overlay data source. -/
structure ReplicaBlock where
  name : String
  count : Int
deriving DecidableEq, Repr

/-- One `secret_generator` block of the overlay data source; `typ`
stands for the Go field `type` (a reserved word in Lean). -/
structure SecretGeneratorBlock where
  name : String
  typ : String
  envs : List String
  files : List String
  literals : List String
deriving DecidableEq, Repr

/-- The overlay description read from the schema data (the attributes
`getKustomization` reads from `d`). -/
structure OverlayData where
  commonAnnotations : List (String × String)
  commonLabels : List (String × String)
  components : List String
  configMapGenerator : List (Option ConfigMapGeneratorBlock)
  crds : List String
  images : List (Option ImageBlock)
  namePrefix : String
  ns : String
  nameSuffix : String
  replicas : List (Option ReplicaBlock)
  resources : List String
  secretGenerator : List (Option SecretGeneratorBlock)
deriving DecidableEq, Repr

/-- `types.ConfigMapArgs` (kustomize API type populated by
`getKustomization`). -/
structure ConfigMapArgs where
  name : String
  behavior : String
  envSources : List String
  literalSources : List String
  fileSources : List String
deriving DecidableEq, Repr

/-- `types.Image`. -/
structure Image where
  name : String
  newName : String
  newTag : String
  digest : String
deriving DecidableEq, Repr

/-- `types.Replica`. -/
structure Replica where
  name : String
  count : Int
deriving DecidableEq, Repr

/-- `types.SecretArgs`; `typ` stands for the Go field `Type`. -/
structure SecretArgs where
  name : String
  typ : String
  envSources : List String
  literalSources : List String
  fileSources : List String
deriving DecidableEq, Repr

/-- `types.Kustomization`, the composed build specification. -/
structure Kustomization where
  apiVersion : String
  kind : String
  commonAnnotations : List (String × String)
  commonLabels : List (String × String)
  components : List String
  configMapGenerator : List ConfigMapArgs
  crds : List String
  images : List Image
  namePrefix : String
  ns : String
  nameSuffix : String
  replicas : List Replica
  resources : List String
  secretGenerator : List SecretArgs
deriving DecidableEq, Repr

/-- The loop body of the `config_map_generator` loop in
`getKustomization`: build a `types.ConfigMapArgs` from one block. -/
def mkConfigMapArgs (cmg : ConfigMapGeneratorBlock) : ConfigMapArgs :=
  { name := cmg.name
  , behavior := cmg.behavior
  , envSources := cmg.envs
  , literalSources := cmg.literals
  , fileSources := cmg.files }

/-- The loop body of the `images` loop in `getKustomization`. -/
def mkImage (img : ImageBlock) : Image :=
  { name := img.name
  , newName := img.newName
  , newTag := img.newTag
  , digest := img.digest }

/-- The loop body of the `replicas` loop in `getKustomization` (the Go
source converts the schema `int` to `int64`). -/
def mkReplica (r : ReplicaBlock) : Replica :=
  { name := r.name, count := r.count }

/-- The loop body of the `secret_generator` loop in
`getKustomization`. -/
def mkSecretArgs (s : SecretGeneratorBlock) : SecretArgs :=
  { name := s.name
  , typ := s.typ
  , envSources := s.envs
  , literalSources := s.literals
  , fileSources := s.files }

/-- The repeated-block loop shape shared by the four loops of
`getKustomization`: iterate in order, `continue` on a `nil` entry,
append the converted entry otherwise. -/
def flattenBlocks {α β : Type} (conv : α → β) : List (Option α) → List β
  | [] => []
  | none :: rest => flattenBlocks conv rest
  | some x :: rest => conv x :: flattenBlocks conv rest

/-- `getKustomization` from `data_source_kustomization_overlay.go`:
compose the canonical build specification from the overlay data. -/
def getKustomization (d : OverlayData) : Kustomization :=
  { apiVersion := "kustomize.config.k8s.io/v1beta1"
  , kind := "Kustomization"
  , commonAnnotations := d.commonAnnotations
  , commonLabels := d.commonLabels
  , components := d.components
  , configMapGenerator := flattenBlocks mkConfigMapArgs d.configMapGenerator
  , crds := d.crds
  , images := flattenBlocks mkImage d.images
  , namePrefix := d.namePrefix
  , ns := d.ns
  , nameSuffix := d.nameSuffix
  , replicas := flattenBlocks mkReplica d.replicas
  , resources := d.resources
  , secretGenerator := flattenBlocks mkSecretArgs d.secretGenerator }

/-- Flattening a repeated block attribute keeps exactly the non-null
entries, converted, in their original order. -/
theorem flattenBlocks_eq_filterMap {α β : Type} (conv : α → β) :
    ∀ l : List (Option α),
      flattenBlocks conv l = (l.filterMap id).map conv
  | [] => rfl
  | none :: rest => by
      simp [flattenBlocks, flattenBlocks_eq_filterMap conv rest]
  | some x :: rest => by
      simp [flattenBlocks, flattenBlocks_eq_filterMap conv rest]

/-!
## Trace semantics of the two read functions

`kustomizationBuild` (from `data_source_kustomization_build.go`) and
`kustomizationOverlay` (from `data_source_kustomization_overlay.go`)
are embedded as functions producing the ordered list of observable
events they perform together with their returned value.  The external
collaborators — `runKustomizeBuild`, `setGeneratedAttributes`, the YAML
encoder and the file system — are modelled as parameters giving the
outcome each external call returns in this run.
-/

/-- Observable events of one read call. -/
inductive Event where
  /-- `mu.Lock()` on the shared `Config.Mutex`. -/
  | lock : Event
  /-- `mu.Unlock()` on the shared `Config.Mutex`. -/
  | unlock : Event
  /-- invocation of the external build operation `runKustomizeBuild`. -/
  | runBuild : Event
  /-- `setGeneratedAttributes(d, rm)`. -/
  | setAttrs : Event
  /-- `ye.Encode(k)` of the composed build specification. -/
  | encodeSpec : Event
  /-- `fSys.WriteFile(name, data)`. -/
  | writeFile (name : String) : Event
  /-- `fSys.RemoveAll(name)` (the deferred cleanup). -/
  | removeAll (name : String) : Event
deriving DecidableEq, Repr

/-- `kustomizationBuild` from `data_source_kustomization_build.go`.
`buildResult` is what `runKustomizeBuild(fSys, path, load_restrictor)`
returns in this run and `setAttrs` is the outcome of
`setGeneratedAttributes(d, rm)`.  The source acquires the shared mutex,
runs the build, releases the mutex, then either wraps the build error
with the prefix `kustomizationBuild: ` or sets the generated
attributes. -/
def kustomizationBuildRun (buildResult : Except String (List Resource))
    (setAttrs : List Resource → Except String Unit) :
    List Event × Except String Unit :=
  match buildResult with
  | .error e =>
      ( [Event.lock, Event.runBuild, Event.unlock]
      , .error ("kustomizationBuild: " ++ e) )
  | .ok rm =>
      ( [Event.lock, Event.runBuild, Event.unlock, Event.setAttrs]
      , setAttrs rm )

/-- The external outcomes consumed by one `kustomizationOverlay` run:
the YAML encoder result (its error is discarded by the source), the
buffer contents and read error from `ioutil.ReadAll` (the error is
discarded), the `fSys.WriteFile` result (discarded), the
`runKustomizeBuild(fSys, ".")` result, and the
`setGeneratedAttributes` outcome. -/
structure OverlayExternals where
  encodeResult : Except String Unit
  readData : String
  readErr : Option String
  writeResult : Except String Unit
  buildResult : Except String (List Resource)
  setAttrs : List Resource → Except String Unit

/-- `kustomizationOverlay` from `data_source_kustomization_overlay.go`:
compose the build specification with `getKustomization`, encode it to
YAML (return value of `Encode` ignored), read the buffer (read error
discarded), write the document to the file `Kustomization` (write
error ignored), defer `RemoveAll("Kustomization")`, run the build, and
either wrap the build error with the prefix `buildKustomizeOverlay: `
or set the generated attributes.  The deferred removal runs on every
exit path, after the return value is computed. -/
def kustomizationOverlayRun (d : OverlayData) (ext : OverlayExternals) :
    List Event × Except String Unit :=
  let _k := getKustomization d
  let inner : List Event × Except String Unit :=
    match ext.buildResult with
    | .error e => ([Event.runBuild], .error ("buildKustomizeOverlay: " ++ e))
    | .ok rm => ([Event.runBuild, Event.setAttrs], ext.setAttrs rm)
  ( Event.encodeSpec :: Event.writeFile "Kustomization" :: inner.1
      ++ [Event.removeAll "Kustomization"]
  , inner.2 )

/-- A trace has every build invocation covered by the mutex: scanning
left to right while counting lock/unlock events, each `runBuild` event
occurs while the held count is positive. -/
def buildsGuardedFrom : List Event → Nat → Bool
  | [], _ => true
  | Event.lock :: rest, held => buildsGuardedFrom rest (held + 1)
  | Event.unlock :: rest, held => buildsGuardedFrom rest (held - 1)
  | Event.runBuild :: rest, held =>
      decide (0 < held) && buildsGuardedFrom rest held
  | _ :: rest, held => buildsGuardedFrom rest held

/-- All `runBuild` events of the trace happen with the mutex held. -/
def buildsGuarded (tr : List Event) : Bool :=
  buildsGuardedFrom tr 0

/-- An empty overlay description, used as concrete input. -/
def emptyOverlayData : OverlayData :=
  { commonAnnotations := []
  , commonLabels := []
  , components := []
  , configMapGenerator := []
  , crds := []
  , images := []
  , namePrefix := ""
  , ns := ""
  , nameSuffix := ""
  , replicas := []
  , resources := ["test_kustomizations/basic/initial"]
  , secretGenerator := [] }

/-- Concrete external outcomes for an overlay run in which every
external call succeeds and the build returns the basic ResourceMap. -/
def okExternals : OverlayExternals :=
  { encodeResult := .ok ()
  , readData := "kustomization-yaml"
  , readErr := none
  , writeResult := .ok ()
  , buildResult := .ok basicRm
  , setAttrs := fun _ => .ok () }

example : buildsGuarded (kustomizationBuildRun (.ok basicRm)
    (fun _ => .ok ())).1 = true := by decide
example : buildsGuarded
    (kustomizationOverlayRun emptyOverlayData okExternals).1 = false := by
  decide

/-!
## Well-formedness of manifest entries and injectivity of the identifier

The build operation guarantees well-formed group/version/kind/namespace
and name fields on every entry it returns (spec §7).  Kubernetes group
names, versions, namespaces and object names never contain the
delimiter characters `_` and `|` and never contain `~`, so in
particular a non-empty group never equals the sentinel `~G` and a
non-empty namespace never equals the sentinel `~X`.  `WellFormed`
records exactly the consequences of this that identifier injectivity
needs. -/
def WellFormed (r : Resource) : Prop :=
  '|' ∉ r.group.data ∧ '_' ∉ r.group.data ∧ r.group ≠ "~G" ∧
  '|' ∉ r.version.data ∧ '_' ∉ r.version.data ∧
  '|' ∉ r.kind.data ∧
  '|' ∉ r.ns.data ∧ r.ns ≠ "~X" ∧
  '|' ∉ r.name.data

instance (r : Resource) : Decidable (WellFormed r) := by
  unfold WellFormed; infer_instance

/-- Appending a string concatenates the underlying character lists. -/
theorem string_data_append (s t : String) : (s ++ t).data = s.data ++ t.data :=
  rfl

/-- Strings with equal character lists are equal. -/
theorem string_eq_of_data_eq {s t : String} (h : s.data = t.data) : s = t := by
  cases s; cases t; exact congrArg String.mk h

/-- Splitting at a delimiter that occurs in neither left part is
unambiguous. -/
theorem append_cons_eq_append_cons {α : Type} {c : α} :
    ∀ {a₁ : List α} {a₂ b₁ b₂ : List α}, c ∉ a₁ → c ∉ a₂ →
      a₁ ++ c :: b₁ = a₂ ++ c :: b₂ → a₁ = a₂ ∧ b₁ = b₂ := by
  intro a₁
  induction a₁ with
  | nil =>
    intro a₂ b₁ b₂ h₁ h₂ h
    cases a₂ with
    | nil => simpa using h
    | cons y ys =>
      simp only [List.nil_append, List.cons_append, List.cons.injEq] at h
      exact absurd (h.1 ▸ List.mem_cons_self y ys) h₂
  | cons x xs ih =>
    intro a₂ b₁ b₂ h₁ h₂ h
    cases a₂ with
    | nil =>
      simp only [List.nil_append, List.cons_append, List.cons.injEq] at h
      exact absurd (h.1.symm ▸ List.mem_cons_self x xs) h₁
    | cons y ys =>
      simp only [List.cons_append, List.cons.injEq] at h
      obtain ⟨rfl, h'⟩ := h
      have h₁' : c ∉ xs := fun hm => h₁ (List.mem_cons.2 (Or.inr hm))
      have h₂' : c ∉ ys := fun hm => h₂ (List.mem_cons.2 (Or.inr hm))
      obtain ⟨he, hb⟩ := ih h₁' h₂' h'
      exact ⟨by rw [he], hb⟩

/-- Character-list view of the identifier. -/
theorem resIdString_data (r : Resource) :
    (resIdString r).data =
      (gvkToken r).data ++ '|' :: ((nsToken r).data ++ '|' :: r.name.data) := by
  simp [resIdString, string_data_append]

/-- Character-list view of the group/version/kind token. -/
theorem gvkToken_data (r : Resource) :
    (gvkToken r).data =
      (groupToken r).data ++ '_' :: (r.version.data ++ '_' :: r.kind.data) := by
  simp [gvkToken, string_data_append]

/-- For a well-formed entry the group token contains no underscore. -/
theorem groupToken_no_underscore {r : Resource} (w : WellFormed r) :
    '_' ∉ (groupToken r).data := by
  unfold groupToken
  split
  · decide
  · exact w.2.1

/-- For a well-formed entry the group/version/kind token contains no
pipe. -/
theorem gvkToken_no_pipe {r : Resource} (w : WellFormed r) :
    '|' ∉ (gvkToken r).data := by
  rw [gvkToken_data]
  intro hm
  rcases List.mem_append.1 hm with hg | hr
  · revert hg
    unfold groupToken
    split
    · decide
    · exact fun hg => w.1 hg
  · rcases List.mem_cons.1 hr with hc | hr'
    · exact absurd hc (by decide)
    · rcases List.mem_append.1 hr' with hv | hk
      · exact w.2.2.2.1 hv
      · rcases List.mem_cons.1 hk with hc | hk'
        · exact absurd hc (by decide)
        · exact w.2.2.2.2.2.1 hk'

/-- For a well-formed entry the namespace token contains no pipe. -/
theorem nsToken_no_pipe {r : Resource} (w : WellFormed r) :
    '|' ∉ (nsToken r).data := by
  unfold nsToken
  split
  · decide
  · exact w.2.2.2.2.2.2.1

/-- The group token determines the group of a well-formed entry. -/
theorem group_eq_of_groupToken_eq {r₁ r₂ : Resource}
    (w₁ : WellFormed r₁) (w₂ : WellFormed r₂)
    (h : groupToken r₁ = groupToken r₂) : r₁.group = r₂.group := by
  unfold groupToken at h
  by_cases hg₁ : r₁.group = ""
  · by_cases hg₂ : r₂.group = ""
    · rw [hg₁, hg₂]
    · rw [if_pos hg₁, if_neg hg₂] at h
      exact absurd h.symm w₂.2.2.1
  · by_cases hg₂ : r₂.group = ""
    · rw [if_neg hg₁, if_pos hg₂] at h
      exact absurd h w₁.2.2.1
    · rw [if_neg hg₁, if_neg hg₂] at h
      exact h

/-- The namespace token determines the namespace of a well-formed
entry. -/
theorem ns_eq_of_nsToken_eq {r₁ r₂ : Resource}
    (w₁ : WellFormed r₁) (w₂ : WellFormed r₂)
    (h : nsToken r₁ = nsToken r₂) : r₁.ns = r₂.ns := by
  unfold nsToken at h
  by_cases hn₁ : r₁.ns = ""
  · by_cases hn₂ : r₂.ns = ""
    · rw [hn₁, hn₂]
    · rw [if_pos hn₁, if_neg hn₂] at h
      exact absurd h.symm w₂.2.2.2.2.2.2.2.1
  · by_cases hn₂ : r₂.ns = ""
    · rw [if_neg hn₁, if_pos hn₂] at h
      exact absurd h w₁.2.2.2.2.2.2.2.1
    · rw [if_neg hn₁, if_neg hn₂] at h
      exact h

/-- Equal identifiers of well-formed entries force equal
group/version/kind/namespace/name fields. -/
theorem resIdString_inj {r₁ r₂ : Resource}
    (w₁ : WellFormed r₁) (w₂ : WellFormed r₂)
    (h : resIdString r₁ = resIdString r₂) :
    r₁.group = r₂.group ∧ r₁.version = r₂.version ∧ r₁.kind = r₂.kind ∧
      r₁.ns = r₂.ns ∧ r₁.name = r₂.name := by
  have hd : (resIdString r₁).data = (resIdString r₂).data := by rw [h]
  rw [resIdString_data, resIdString_data] at hd
  obtain ⟨hgvk, hrest⟩ :=
    append_cons_eq_append_cons (gvkToken_no_pipe w₁) (gvkToken_no_pipe w₂) hd
  obtain ⟨hns, hname⟩ :=
    append_cons_eq_append_cons (nsToken_no_pipe w₁) (nsToken_no_pipe w₂) hrest
  have hgvk' : (gvkToken r₁).data = (gvkToken r₂).data := hgvk
  rw [gvkToken_data, gvkToken_data] at hgvk'
  obtain ⟨hg, hvk⟩ := append_cons_eq_append_cons
    (groupToken_no_underscore w₁) (groupToken_no_underscore w₂) hgvk'
  obtain ⟨hv, hk⟩ := append_cons_eq_append_cons
    w₁.2.2.2.2.1 w₂.2.2.2.2.1 hvk
  refine ⟨?_, string_eq_of_data_eq hv, string_eq_of_data_eq hk, ?_,
    string_eq_of_data_eq hname⟩
  · exact group_eq_of_groupToken_eq w₁ w₂ (string_eq_of_data_eq hg)
  · exact ns_eq_of_nsToken_eq w₁ w₂ (string_eq_of_data_eq hns)

/-- Equal identifiers of well-formed entries force equal priority
tiers (the tier is a function of the kind, and the kind is recoverable
from the identifier). -/
theorem tierOf_eq_of_resIdString_eq {r₁ r₂ : Resource}
    (w₁ : WellFormed r₁) (w₂ : WellFormed r₂)
    (h : resIdString r₁ = resIdString r₂) : tierOf r₁ = tierOf r₂ := by
  have hk : r₁.kind = r₂.kind := (resIdString_inj w₁ w₂ h).2.2.1
  unfold tierOf
  rw [hk]

/-- Every entry is assigned one of the three tiers. -/
theorem tierOf_lt_three (r : Resource) :
    tierOf r = 0 ∨ tierOf r = 1 ∨ tierOf r = 2 := by
  unfold tierOf
  split
  · exact Or.inl rfl
  · split
    · exact Or.inr (Or.inr rfl)
    · exact Or.inr (Or.inl rfl)

/-- Membership in the tier list at index `i` means coming from an entry
of the ResourceMap whose tier is `i`. -/
theorem mem_tierList_iff (rm : List Resource) (i : Nat) (s : String) :
    s ∈ ((flattenKustomizationIDs rm).2.getD i []) ↔
      ∃ r ∈ rm, tierOf r = i ∧ resIdString r = s := by
  match i with
  | 0 =>
    have hg : (flattenKustomizationIDs rm).2.getD 0 [] =
        (rm.filter (fun r => tierOf r == 0)).map resIdString := rfl
    rw [hg]
    simp only [List.mem_map, List.mem_filter, beq_iff_eq]
    constructor
    · rintro ⟨r, ⟨hr, ht⟩, hid⟩
      exact ⟨r, hr, ht, hid⟩
    · rintro ⟨r, hr, ht, hid⟩
      exact ⟨r, ⟨hr, ht⟩, hid⟩
  | 1 =>
    have hg : (flattenKustomizationIDs rm).2.getD 1 [] =
        (rm.filter (fun r => tierOf r == 1)).map resIdString := rfl
    rw [hg]
    simp only [List.mem_map, List.mem_filter, beq_iff_eq]
    constructor
    · rintro ⟨r, ⟨hr, ht⟩, hid⟩
      exact ⟨r, hr, ht, hid⟩
    · rintro ⟨r, hr, ht, hid⟩
      exact ⟨r, ⟨hr, ht⟩, hid⟩
  | 2 =>
    have hg : (flattenKustomizationIDs rm).2.getD 2 [] =
        (rm.filter (fun r => tierOf r == 2)).map resIdString := rfl
    rw [hg]
    simp only [List.mem_map, List.mem_filter, beq_iff_eq]
    constructor
    · rintro ⟨r, ⟨hr, ht⟩, hid⟩
      exact ⟨r, hr, ht, hid⟩
    · rintro ⟨r, hr, ht, hid⟩
      exact ⟨r, ⟨hr, ht⟩, hid⟩
  | (n + 3) =>
    have hg : (flattenKustomizationIDs rm).2.getD (n + 3) [] =
        ([] : List String) := rfl
    rw [hg]
    constructor
    · intro hs
      simp at hs
    · rintro ⟨r, _, ht, _⟩
      rcases tierOf_lt_three r with h0 | h1 | h2 <;> omega

/-- Membership in the full identifier list means coming from an entry
of the ResourceMap. -/
theorem mem_allIds_iff (rm : List Resource) (s : String) :
    s ∈ (flattenKustomizationIDs rm).1 ↔ ∃ r ∈ rm, resIdString r = s := by
  simp [flattenKustomizationIDs, List.mem_map]

/-- The caller-facing result of one build: the identifier set, the
ordered per-tier identifier lists, and the identifier-to-serialized-body
mapping (the `ids`, `ids_prio` and `manifests` attributes). -/
structure BuildResult where
  ids : List String
  idsPrio : List (List String)
  manifests : List (String × String)
deriving DecidableEq, Repr

/-- Modelled from the spec: the ResultAssembler packaging done by
`setGeneratedAttributes` (not among the provided source files): build
the identifier set and tier lists with `flattenKustomizationIDs` and
map every identifier to the entry's serialized body. -/
def assembleBuildResult (rm : List Resource) : BuildResult :=
  { ids := (flattenKustomizationIDs rm).1
  , idsPrio := (flattenKustomizationIDs rm).2
  , manifests := rm.map (fun r => (resIdString r, r.body)) }

/-!
## Claims
-/

/-- C1: the claim states that every invocation of `runKustomizeBuild`
happens with the shared process-wide mutex held, for both data sources.
This holds for `kustomizationBuild` (first conjunct) but fails for
`kustomizationOverlay`: its trace contains the build invocation and no
lock event at all — the function never touches `Config.Mutex`.  The
remaining conjuncts evaluate the code at the failing input (any
`kustomization_overlay` read, here an overlay listing the basic base as
its only resource). -/
theorem claim1_overlay_build_not_guarded :
    (∀ (br : Except String (List Resource))
        (sa : List Resource → Except String Unit),
        buildsGuarded (kustomizationBuildRun br sa).1 = true) ∧
    buildsGuarded (kustomizationOverlayRun emptyOverlayData okExternals).1
        = false ∧
    Event.lock ∉ (kustomizationOverlayRun emptyOverlayData okExternals).1 ∧
    Event.runBuild ∈ (kustomizationOverlayRun emptyOverlayData okExternals).1
    := by
  refine ⟨?_, by decide, by decide, by decide⟩
  intro br sa
  cases br <;> rfl

/-- C2: the classifier returns exactly three tiers in ascending
apply-order (the list at index `i` holds exactly the identifiers of the
ResourceMap entries of tier `i`), the union of the three tiers is the
full identifier set, and for well-formed ResourceMaps the per-tier sets
are pairwise disjoint. -/
theorem claim2_tiers_partition (rm : List Resource)
    (hwf : ∀ r ∈ rm, WellFormed r) :
    (flattenKustomizationIDs rm).2.length = 3 ∧
    (∀ s, s ∈ (flattenKustomizationIDs rm).1 ↔
        (s ∈ (flattenKustomizationIDs rm).2.getD 0 [] ∨
         s ∈ (flattenKustomizationIDs rm).2.getD 1 [] ∨
         s ∈ (flattenKustomizationIDs rm).2.getD 2 [])) ∧
    (∀ i j s, i ≠ j →
        s ∈ (flattenKustomizationIDs rm).2.getD i [] →
        s ∉ (flattenKustomizationIDs rm).2.getD j []) ∧
    (∀ i s, s ∈ (flattenKustomizationIDs rm).2.getD i [] ↔
        ∃ r ∈ rm, tierOf r = i ∧ resIdString r = s) := by
  refine ⟨rfl, ?_, ?_, mem_tierList_iff rm⟩
  · intro s
    rw [mem_allIds_iff, mem_tierList_iff, mem_tierList_iff, mem_tierList_iff]
    constructor
    · rintro ⟨r, hr, hid⟩
      rcases tierOf_lt_three r with h | h | h
      · exact Or.inl ⟨r, hr, h, hid⟩
      · exact Or.inr (Or.inl ⟨r, hr, h, hid⟩)
      · exact Or.inr (Or.inr ⟨r, hr, h, hid⟩)
    · rintro (⟨r, hr, _, hid⟩ | ⟨r, hr, _, hid⟩ | ⟨r, hr, _, hid⟩) <;>
        exact ⟨r, hr, hid⟩
  · intro i j s hij hi hj
    rw [mem_tierList_iff] at hi hj
    obtain ⟨r₁, hr₁, ht₁, hid₁⟩ := hi
    obtain ⟨r₂, hr₂, ht₂, hid₂⟩ := hj
    have := tierOf_eq_of_resIdString_eq (hwf r₁ hr₁) (hwf r₂ hr₂)
      (hid₁.trans hid₂.symm)
    omega

/-- C2 witness: the partition property instantiated on the basic
ResourceMap, whose four entries are all well-formed. -/
theorem claim2_tiers_partition_witness :
    (∀ r ∈ basicRm, WellFormed r) ∧
    ((flattenKustomizationIDs basicRm).2.length = 3 ∧
    (∀ s, s ∈ (flattenKustomizationIDs basicRm).1 ↔
        (s ∈ (flattenKustomizationIDs basicRm).2.getD 0 [] ∨
         s ∈ (flattenKustomizationIDs basicRm).2.getD 1 [] ∨
         s ∈ (flattenKustomizationIDs basicRm).2.getD 2 [])) ∧
    (∀ i j s, i ≠ j →
        s ∈ (flattenKustomizationIDs basicRm).2.getD i [] →
        s ∉ (flattenKustomizationIDs basicRm).2.getD j []) ∧
    (∀ i s, s ∈ (flattenKustomizationIDs basicRm).2.getD i [] ↔
        ∃ r ∈ basicRm, tierOf r = i ∧ resIdString r = s)) :=
  ⟨by decide, claim2_tiers_partition basicRm (by decide)⟩

/-- C3: identifiers have the bit-exact format
`<sentinel-or-group>_<version>_<kind>|<namespaceToken>|<name>`, the
group and namespace tokens are never the empty string (an empty group
becomes `~G`, an empty namespace the distinct token `~X`), the
core-group cluster-scoped Namespace `test-basic` renders as
`~G_v1_Namespace|~X|test-basic`, and the namespaced Deployment renders
as `apps_v1_Deployment|test-basic|test`. -/
theorem claim3_identifier_format :
    resIdString nsRes = "~G_v1_Namespace|~X|test-basic" ∧
    resIdString depRes = "apps_v1_Deployment|test-basic|test" ∧
    (∀ r : Resource,
      resIdString r = gvkToken r ++ "|" ++ nsToken r ++ "|" ++ r.name ∧
      gvkToken r = groupToken r ++ "_" ++ r.version ++ "_" ++ r.kind ∧
      groupToken r ≠ "" ∧ nsToken r ≠ "" ∧
      (r.group = "" → groupToken r = "~G") ∧
      (r.group ≠ "" → groupToken r = r.group) ∧
      (r.ns = "" → nsToken r = "~X") ∧
      (r.ns ≠ "" → nsToken r = r.ns)) := by
  refine ⟨by decide, by decide,
    fun r => ⟨rfl, rfl, ?_, ?_, ?_, ?_, ?_, ?_⟩⟩
  · unfold groupToken
    split
    · decide
    · assumption
  · unfold nsToken
    split
    · decide
    · assumption
  · intro h
    unfold groupToken
    rw [if_pos h]
  · intro h
    unfold groupToken
    rw [if_neg h]
  · intro h
    unfold nsToken
    rw [if_pos h]
  · intro h
    unfold nsToken
    rw [if_neg h]

/-- C3 witness: the format facts instantiated on the Service entry
(non-empty namespace, empty group) and the Namespace entry. -/
theorem claim3_identifier_format_witness :
    resIdString svcRes =
      gvkToken svcRes ++ "|" ++ nsToken svcRes ++ "|" ++ svcRes.name ∧
    nsToken svcRes = svcRes.ns ∧
    resIdString nsRes = "~G_v1_Namespace|~X|test-basic" :=
  ⟨(claim3_identifier_format.2.2 svcRes).1,
   (claim3_identifier_format.2.2 svcRes).2.2.2.2.2.2.2 (by decide),
   claim3_identifier_format.1⟩

/-- C4: identification is injective: two manifest entries of one
build's output that differ in at least one of group, version, kind,
namespace or name produce distinct identifier strings (entries are
well-formed as the build operation guarantees: no delimiter characters
in the fields, no sentinel collisions). -/
theorem claim4_identify_injective (r₁ r₂ : Resource)
    (w₁ : WellFormed r₁) (w₂ : WellFormed r₂)
    (hne : r₁.group ≠ r₂.group ∨ r₁.version ≠ r₂.version ∨
           r₁.kind ≠ r₂.kind ∨ r₁.ns ≠ r₂.ns ∨ r₁.name ≠ r₂.name) :
    resIdString r₁ ≠ resIdString r₂ := by
  intro h
  obtain ⟨hg, hv, hk, hn, hm⟩ := resIdString_inj w₁ w₂ h
  rcases hne with h' | h' | h' | h' | h' <;> exact h' (by assumption)

/-- C4 witness: the Namespace and Deployment entries of the basic base
differ in every field and get distinct identifiers. -/
theorem claim4_identify_injective_witness :
    WellFormed nsRes ∧ WellFormed depRes ∧
    (nsRes.group ≠ depRes.group ∨ nsRes.version ≠ depRes.version ∨
     nsRes.kind ≠ depRes.kind ∨ nsRes.ns ≠ depRes.ns ∨
     nsRes.name ≠ depRes.name) ∧
    resIdString nsRes ≠ resIdString depRes :=
  ⟨by decide, by decide, by decide,
   claim4_identify_injective nsRes depRes (by decide) (by decide)
     (by decide)⟩

/-- C5: for every overlay description, `getKustomization` maps each
repeated block attribute list (`config_map_generator`, `images`,
`replicas`, `secret_generator`) to the sequence of its non-null
entries, converted in the caller-declared order — null entries are
skipped, nothing is reordered or deduplicated, and composition is a
total function (it can never fail). -/
theorem claim5_overlay_flattening (d : OverlayData) :
    (getKustomization d).configMapGenerator =
      (d.configMapGenerator.filterMap id).map mkConfigMapArgs ∧
    (getKustomization d).images = (d.images.filterMap id).map mkImage ∧
    (getKustomization d).replicas =
      (d.replicas.filterMap id).map mkReplica ∧
    (getKustomization d).secretGenerator =
      (d.secretGenerator.filterMap id).map mkSecretArgs :=
  ⟨flattenBlocks_eq_filterMap mkConfigMapArgs d.configMapGenerator,
   flattenBlocks_eq_filterMap mkImage d.images,
   flattenBlocks_eq_filterMap mkReplica d.replicas,
   flattenBlocks_eq_filterMap mkSecretArgs d.secretGenerator⟩

/-- An overlay description with null block entries interleaved with
real ones, used to instantiate C5. -/
def sampleOverlayData : OverlayData :=
  { commonAnnotations := []
  , commonLabels := []
  , components := []
  , configMapGenerator :=
      [ some { name := "test-configmap1", behavior := "create"
             , envs := [], files := []
             , literals := ["KEY1=VALUE1", "KEY2=VALUE2"] }
      , none
      , some { name := "test-configmap2", behavior := ""
             , envs := ["test_kustomizations/_test_files/properties.env"]
             , files := ["test_kustomizations/_test_files/properties.env"]
             , literals := ["KEY1=VALUE1", "KEY2=VALUE2"] } ]
  , crds := []
  , images :=
      [ none
      , some { name := "nginx", newName := "testname", newTag := "testtag"
             , digest := "sha256:abcdefghijklmnop123456" } ]
  , namePrefix := "test-"
  , ns := "test-overlay-basic"
  , nameSuffix := "-test"
  , replicas := [some { name := "test", count := 5 }, none]
  , resources := ["test_kustomizations/basic/initial"]
  , secretGenerator :=
      [ some { name := "test-secret1", typ := "Opaque"
             , envs := [], files := []
             , literals := ["KEY1=VALUE1", "KEY2=VALUE2"] } ] }

/-- C5 witness: the flattening equalities instantiated on a concrete
overlay description with null entries. -/
theorem claim5_overlay_flattening_witness :
    (getKustomization sampleOverlayData).configMapGenerator =
      (sampleOverlayData.configMapGenerator.filterMap id).map
        mkConfigMapArgs ∧
    (getKustomization sampleOverlayData).images =
      (sampleOverlayData.images.filterMap id).map mkImage ∧
    (getKustomization sampleOverlayData).replicas =
      (sampleOverlayData.replicas.filterMap id).map mkReplica ∧
    (getKustomization sampleOverlayData).secretGenerator =
      (sampleOverlayData.secretGenerator.filterMap id).map mkSecretArgs :=
  claim5_overlay_flattening sampleOverlayData

/-- C6: whenever the external build operation fails, the caller-facing
operation returns the build error's message behind the
component-identifying prefix (`kustomizationBuild: ` for the build data
source, `buildKustomizeOverlay: ` for the overlay data source), the
build is invoked exactly once (no retry), and the generated attributes
are never set (no `setGeneratedAttributes` event, hence no partial
`ids`/`ids_prio`/`manifests`). -/
theorem claim6_build_error_propagation (e : String)
    (sa : List Resource → Except String Unit)
    (d : OverlayData) (ext : OverlayExternals)
    (hb : ext.buildResult = .error e) :
    (kustomizationBuildRun (.error e) sa).2 =
        .error ("kustomizationBuild: " ++ e) ∧
    Event.setAttrs ∉ (kustomizationBuildRun (.error e) sa).1 ∧
    (kustomizationBuildRun (.error e) sa).1.count Event.runBuild = 1 ∧
    (kustomizationOverlayRun d ext).2 =
        .error ("buildKustomizeOverlay: " ++ e) ∧
    Event.setAttrs ∉ (kustomizationOverlayRun d ext).1 ∧
    (kustomizationOverlayRun d ext).1.count Event.runBuild = 1 := by
  refine ⟨rfl, ?_, ?_, ?_, ?_, ?_⟩
  · show Event.setAttrs ∉ [Event.lock, Event.runBuild, Event.unlock]
    decide
  · show List.count Event.runBuild
        [Event.lock, Event.runBuild, Event.unlock] = 1
    decide
  · simp [kustomizationOverlayRun, hb]
  · simp [kustomizationOverlayRun, hb]
  · simp [kustomizationOverlayRun, hb, List.count_cons, List.count_append]

/-- Concrete external outcomes for an overlay run whose build fails. -/
def errExternals : OverlayExternals :=
  { encodeResult := .ok ()
  , readData := "kustomization-yaml"
  , readErr := none
  , writeResult := .ok ()
  , buildResult := .error "trouble configuring builtin PatchTransformer"
  , setAttrs := fun _ => .ok () }

/-- C6 witness: error propagation instantiated on a concrete failing
build. -/
theorem claim6_build_error_propagation_witness :
    errExternals.buildResult =
      .error "trouble configuring builtin PatchTransformer" ∧
    ((kustomizationBuildRun
        (.error "trouble configuring builtin PatchTransformer")
        (fun _ => .ok ())).2 =
      .error ("kustomizationBuild: " ++
        "trouble configuring builtin PatchTransformer") ∧
    Event.setAttrs ∉ (kustomizationBuildRun
        (.error "trouble configuring builtin PatchTransformer")
        (fun _ => .ok ())).1 ∧
    (kustomizationBuildRun
        (.error "trouble configuring builtin PatchTransformer")
        (fun _ => .ok ())).1.count Event.runBuild = 1 ∧
    (kustomizationOverlayRun emptyOverlayData errExternals).2 =
      .error ("buildKustomizeOverlay: " ++
        "trouble configuring builtin PatchTransformer") ∧
    Event.setAttrs ∉
      (kustomizationOverlayRun emptyOverlayData errExternals).1 ∧
    (kustomizationOverlayRun emptyOverlayData errExternals).1.count
        Event.runBuild = 1) :=
  ⟨rfl, claim6_build_error_propagation
    "trouble configuring builtin PatchTransformer" (fun _ => .ok ())
    emptyOverlayData errExternals rfl⟩

/-- C7: building the basic base (one Namespace `test-basic`, one
Deployment `test`, one Service `test`, one Ingress `test`) yields
exactly 4 identifiers with no duplicates; tier 0 is exactly the
Namespace identifier, tier 1 exactly the other three, tier 2 empty. -/
theorem claim7_basic_scenario :
    (flattenKustomizationIDs basicRm).1.length = 4 ∧
    (flattenKustomizationIDs basicRm).1 =
      [ "~G_v1_Namespace|~X|test-basic"
      , "apps_v1_Deployment|test-basic|test"
      , "networking.k8s.io_v1beta1_Ingress|test-basic|test"
      , "~G_v1_Service|test-basic|test" ] ∧
    (flattenKustomizationIDs basicRm).1.Nodup ∧
    (flattenKustomizationIDs basicRm).2 =
      [ ["~G_v1_Namespace|~X|test-basic"]
      , [ "apps_v1_Deployment|test-basic|test"
        , "networking.k8s.io_v1beta1_Ingress|test-basic|test"
        , "~G_v1_Service|test-basic|test" ]
      , [] ] := by decide

/-- C8: builds are deterministic — when two runs invoke the external
build operation on the same input and the referenced files have not
changed (so the operation returns the same ResourceMap to both runs),
the assembled BuildResults agree: same identifier list, same per-tier
lists, byte-for-byte equal serialized bodies for every identifier. -/
theorem claim8_build_deterministic
    (buildOp₁ buildOp₂ : String → Except String (List Resource))
    (path : String) (hfiles : buildOp₁ path = buildOp₂ path) :
    (buildOp₁ path).map assembleBuildResult =
      (buildOp₂ path).map assembleBuildResult ∧
    (∀ rm₁ rm₂, buildOp₁ path = .ok rm₁ → buildOp₂ path = .ok rm₂ →
      (assembleBuildResult rm₁).ids = (assembleBuildResult rm₂).ids ∧
      (assembleBuildResult rm₁).idsPrio =
        (assembleBuildResult rm₂).idsPrio ∧
      (assembleBuildResult rm₁).manifests =
        (assembleBuildResult rm₂).manifests) := by
  refine ⟨by rw [hfiles], ?_⟩
  intro rm₁ rm₂ h₁ h₂
  rw [hfiles] at h₁
  rw [h₁] at h₂
  injection h₂ with h
  subst h
  exact ⟨rfl, rfl, rfl⟩

/-- A build operation returning the basic ResourceMap on every root
path. -/
def constBasicBuildOp : String → Except String (List Resource) :=
  fun _ => .ok basicRm

/-- C8 witness: determinism instantiated on two runs of the constant
basic build operation. -/
theorem claim8_build_deterministic_witness :
    constBasicBuildOp "." = constBasicBuildOp "." ∧
    ((constBasicBuildOp ".").map assembleBuildResult =
      (constBasicBuildOp ".").map assembleBuildResult ∧
    (∀ rm₁ rm₂, constBasicBuildOp "." = .ok rm₁ →
        constBasicBuildOp "." = .ok rm₂ →
      (assembleBuildResult rm₁).ids = (assembleBuildResult rm₂).ids ∧
      (assembleBuildResult rm₁).idsPrio =
        (assembleBuildResult rm₂).idsPrio ∧
      (assembleBuildResult rm₁).manifests =
        (assembleBuildResult rm₂).manifests)) :=
  ⟨rfl, claim8_build_deterministic constBasicBuildOp constBasicBuildOp
    "." rfl⟩

/-- C9: every overlay build writes the serialized build specification
under the fixed file name `Kustomization` at the root of the file
system view (it is the only file ever written), and the deferred
`RemoveAll("Kustomization")` is the last event of the trace on every
exit path — success or failure — so the staged document is always
cleaned up. -/
theorem claim9_spec_file_lifecycle (d : OverlayData)
    (ext : OverlayExternals) :
    (∃ mid : List Event,
      (kustomizationOverlayRun d ext).1 =
        Event.encodeSpec :: Event.writeFile "Kustomization" ::
          (mid ++ [Event.removeAll "Kustomization"])) ∧
    (∀ n, Event.writeFile n ∈ (kustomizationOverlayRun d ext).1 →
      n = "Kustomization") ∧
    (∀ n, Event.removeAll n ∈ (kustomizationOverlayRun d ext).1 →
      n = "Kustomization") := by
  rcases hb : ext.buildResult with e | rm
  · refine ⟨⟨[Event.runBuild], by simp [kustomizationOverlayRun, hb]⟩,
      ?_, ?_⟩ <;>
    · intro n hn
      simp [kustomizationOverlayRun, hb] at hn
      exact hn
  · refine ⟨⟨[Event.runBuild, Event.setAttrs],
      by simp [kustomizationOverlayRun, hb]⟩, ?_, ?_⟩ <;>
    · intro n hn
      simp [kustomizationOverlayRun, hb] at hn
      exact hn

/-- C9 witness: the lifecycle instantiated on a concrete successful
run. -/
theorem claim9_spec_file_lifecycle_witness :
    (∃ mid : List Event,
      (kustomizationOverlayRun emptyOverlayData okExternals).1 =
        Event.encodeSpec :: Event.writeFile "Kustomization" ::
          (mid ++ [Event.removeAll "Kustomization"])) ∧
    (∀ n, Event.writeFile n ∈
        (kustomizationOverlayRun emptyOverlayData okExternals).1 →
      n = "Kustomization") ∧
    (∀ n, Event.removeAll n ∈
        (kustomizationOverlayRun emptyOverlayData okExternals).1 →
      n = "Kustomization") :=
  claim9_spec_file_lifecycle emptyOverlayData okExternals

/-- C10: `kustomizationOverlay` discards every error arising while
serializing and staging the build specification: the run's trace and
outcome do not depend on the encoder result, the buffer-read error or
the file-write result (first conjunct: two runs differing only in
those channels coincide), the build operation is invoked regardless
(second conjunct), and a failure surfaces only as a build error with
the `buildKustomizeOverlay: ` prefix (third conjunct). -/
theorem claim10_staging_errors_discarded (d : OverlayData)
    (ext₁ ext₂ : OverlayExternals)
    (hdata : ext₁.readData = ext₂.readData)
    (hbuild : ext₁.buildResult = ext₂.buildResult)
    (hset : ext₁.setAttrs = ext₂.setAttrs) :
    kustomizationOverlayRun d ext₁ = kustomizationOverlayRun d ext₂ ∧
    Event.runBuild ∈ (kustomizationOverlayRun d ext₁).1 ∧
    (∀ e, ext₁.buildResult = .error e →
      (kustomizationOverlayRun d ext₁).2 =
        .error ("buildKustomizeOverlay: " ++ e)) := by
  refine ⟨?_, ?_, ?_⟩
  · obtain ⟨enc₁, rd₁, re₁, wr₁, br₁, sa₁⟩ := ext₁
    obtain ⟨enc₂, rd₂, re₂, wr₂, br₂, sa₂⟩ := ext₂
    simp only at hbuild hset
    subst hbuild
    subst hset
    rfl
  · rcases hb : ext₁.buildResult with e | rm <;>
      simp [kustomizationOverlayRun, hb]
  · intro e he
    simp [kustomizationOverlayRun, he]

/-- Concrete external outcomes in which the encoder, the buffer read
and the file write all fail but the build succeeds. -/
def noisyExternals : OverlayExternals :=
  { encodeResult := .error "yaml: encode failed"
  , readData := "kustomization-yaml"
  , readErr := some "read failed"
  , writeResult := .error "write failed"
  , buildResult := .ok basicRm
  , setAttrs := fun _ => .ok () }

/-- C10 witness: a run whose staging steps all fail coincides with the
fully successful run and still invokes the build. -/
theorem claim10_staging_errors_discarded_witness :
    noisyExternals.readData = okExternals.readData ∧
    noisyExternals.buildResult = okExternals.buildResult ∧
    noisyExternals.setAttrs = okExternals.setAttrs ∧
    (kustomizationOverlayRun emptyOverlayData noisyExternals =
      kustomizationOverlayRun emptyOverlayData okExternals ∧
    Event.runBuild ∈
      (kustomizationOverlayRun emptyOverlayData noisyExternals).1 ∧
    (∀ e, noisyExternals.buildResult = .error e →
      (kustomizationOverlayRun emptyOverlayData noisyExternals).2 =
        .error ("buildKustomizeOverlay: " ++ e))) :=
  ⟨rfl, rfl, rfl, claim10_staging_errors_discarded emptyOverlayData
    noisyExternals okExternals rfl rfl rfl⟩
